import Mathlib

/-!
Verification of the bounded-concurrency media pipeline of the
telegram video-download bot.

The development shallowly embeds the parts of the Python source that the
specification talks about:

* `src/utils/progress.py`     — the Progress Channel (`ProgressTracker`);
* `src/utils/video_compressor.py` — the Compression Engine
  (`VideoCompressor.compress_if_needed` and `_compress_video_sync`);
* `src/services/twitter_service.py` — the Retrieval Orchestrator
  (`TwitterService.download` and its user-agent retry loop);
* `src/processors/media_processor.py` — the Pipeline Stage Runner
  (`MediaProcessor.process`);
* `src/queue_manager.py`      — the Task Queue & Worker Pool
  (`DownloadQueueManager`), modelled as a labelled transition system.

Machine floats of the source are modelled over `ℚ` (every constant that
appears — 49.5·1024·1024, 0.95, 128 — is exactly representable in binary
floating point, so the rational model computes the same values the Python
code does).  The file system is modelled as a partial map from path
strings to byte sizes plus a set of directories.  External effects
(yt-dlp, ffmpeg, aiohttp, Telegram) are oracles supplied through explicit
environment records, mirroring exactly how the source branches on their
outcomes.
-/

namespace Telegram

/-! ### Progress Channel — src/utils/progress.py -/

/-- `ProgressStage` enum of `progress.py`. -/
inductive ProgressStage where
  | idle
  | downloading
  | processing
  | compressing
  | uploading
  | completed
  | failed
deriving DecidableEq, Repr

/-- `ProgressState` dataclass of `progress.py`.  The wall-clock
`last_update` field is modelled as a caller-supplied timestamp. -/
structure ProgressState where
  stage : ProgressStage := ProgressStage.idle
  progress : ℚ := 0
  speed : String := ""
  eta : String := ""
  filename : String := ""
  error : Option String := none
  completed : Bool := false
  last_update : ℚ := 0
deriving DecidableEq, Repr

/-- The keyword arguments of `ProgressTracker.update`; a `none` field is
an argument the caller did not provide (Python default `None`). -/
structure UpdateArgs where
  stage : Option ProgressStage := none
  progress : Option ℚ := none
  speed : Option String := none
  eta : Option String := none
  filename : Option String := none
  error : Option String := none
  completed : Option Bool := none
deriving DecidableEq, Repr

namespace ProgressTracker

/-- `ProgressTracker.update` of `progress.py`: merge only the provided
fields, in source order; `progress` is clamped with
`min(100.0, max(0.0, progress))`; a provided `error` also sets
`stage = FAILED`; a provided `completed = True` also sets
`stage = COMPLETED`; finally `last_update` is stamped. -/
def update (s : ProgressState) (a : UpdateArgs) (now : ℚ) : ProgressState :=
  let s1 : ProgressState :=
    match a.stage with
    | some st => { s with stage := st }
    | none => s
  let s2 : ProgressState :=
    match a.progress with
    | some p => { s1 with progress := min 100 (max 0 p) }
    | none => s1
  let s3 : ProgressState :=
    match a.speed with
    | some v => { s2 with speed := v }
    | none => s2
  let s4 : ProgressState :=
    match a.eta with
    | some v => { s3 with eta := v }
    | none => s3
  let s5 : ProgressState :=
    match a.filename with
    | some v => { s4 with filename := v }
    | none => s4
  let s6 : ProgressState :=
    match a.error with
    | some e => { s5 with error := some e, stage := ProgressStage.failed }
    | none => s5
  let s7 : ProgressState :=
    match a.completed with
    | some c =>
        if c then { s6 with completed := c, stage := ProgressStage.completed }
        else { s6 with completed := c }
    | none => s6
  { s7 with last_update := now }

/-- `ProgressTracker.set_error`: `update(error=error_message, completed=True)`. -/
def set_error (s : ProgressState) (error_message : String) (now : ℚ) : ProgressState :=
  update s { error := some error_message, completed := some true } now

/-- `ProgressTracker.set_completed`: `update(progress=100.0, completed=True)`. -/
def set_completed (s : ProgressState) (now : ℚ) : ProgressState :=
  update s { progress := some 100, completed := some true } now

end ProgressTracker

open ProgressTracker

/-! ### File-system model

Paths map to byte sizes; directories are a separate predicate so that
`tempfile.mkdtemp` / `shutil.rmtree` can be modelled. -/

/-- A snapshot of the file system: files (path to byte size) and
directories. -/
structure FSys where
  files : String → Option Nat
  dirs : String → Bool

/-- The empty file system. -/
def FSys.empty : FSys := ⟨fun _ => none, fun _ => false⟩

/-- Create / overwrite the file at `p` with `sz` bytes. -/
def FSys.addFile (fs : FSys) (p : String) (sz : Nat) : FSys :=
  { fs with files := fun q => if q = p then some sz else fs.files q }

/-- `os.remove` / `os.unlink` at `p`. -/
def FSys.rmFile (fs : FSys) (p : String) : FSys :=
  { fs with files := fun q => if q = p then none else fs.files q }

/-- `tempfile.mkdtemp`: create the directory `d`. -/
def FSys.addDir (fs : FSys) (d : String) : FSys :=
  { fs with dirs := fun q => if q = d then true else fs.dirs q }

/-- `shutil.rmtree d`: remove the directory and every file under it. -/
def FSys.rmTree (fs : FSys) (d : String) : FSys :=
  { files := fun q => if (d ++ "/").isPrefixOf q then none else fs.files q,
    dirs := fun q => if q = d then false else fs.dirs q }

/-! ### Compression Engine — src/utils/video_compressor.py -/

/-- Scan the reversed character list of a path for the extension dot of
its final component: `some rest` is the part before the dot (still
reversed); `none` when the final component has no dot. -/
def stripExtRevAux : List Char → Option (List Char)
  | [] => none
  | c :: rest =>
    if c = '.' then some rest
    else if c = '/' then none
    else stripExtRevAux rest

/-- `os.path.splitext(p)[0]`: the path without its final extension. -/
def splitext_root (p : String) : String :=
  match stripExtRevAux p.data.reverse with
  | some rest => String.mk rest.reverse
  | none => p

/-- `VideoCompressor.MAX_SIZE_MB = 49.5`. -/
def MAX_SIZE_MB : ℚ := 99 / 2

/-- `VideoCompressor.MAX_SIZE_BYTES = int(MAX_SIZE_MB * 1024 * 1024)`
(the product is exact in binary floating point). -/
def MAX_SIZE_BYTES : Nat := 51904512

/-- `AUDIO_BITRATE_KBPS = 128` of `_compress_video_sync`. -/
def AUDIO_BITRATE_KBPS : ℚ := 128

/-- `TARGET_SIZE_RATIO = 0.95` of `_compress_video_sync`. -/
def TARGET_SIZE_RATIO : ℚ := 95 / 100

/-- The bitrate computation of `_compress_video_sync`:
`target_size_bytes = max_size_bytes * 0.95`;
`target_size_kbits = target_size_bytes * 8 / 1000`;
`total_bitrate_kbps = target_size_kbits / duration`;
`video_bitrate_kbps = total_bitrate_kbps - 128`. -/
def video_bitrate_kbps (max_size_bytes duration : ℚ) : ℚ :=
  let target_size_bytes := max_size_bytes * TARGET_SIZE_RATIO
  let target_size_kbits := target_size_bytes * 8 / 1000
  let total_bitrate_kbps := target_size_kbits / duration
  total_bitrate_kbps - AUDIO_BITRATE_KBPS

/-- Oracle for the external probe/encoder effects of one
`_compress_video_sync` call: the `ffprobe` duration (0.0 on probe
failure, as `_get_duration_sync` returns), whether each ffmpeg pass
timed out, each pass's exit code, and the file the encoder left at the
output path after pass 2 ran (`none` if it created nothing). -/
structure EncodeEnv where
  duration : ℚ
  pass1_timed_out : Bool := false
  pass1_exit : Int := 0
  pass2_timed_out : Bool := false
  pass2_exit : Int := 0
  pass2_output : Option Nat := none

/-- `_compress_video_sync`, as a file-system transformer returning the
source's `(success, message)` pair.  Branch order follows the source:
non-positive duration, then non-positive computed video bitrate, then
pass-1 timeout / non-zero exit (pass 1 writes only to the null device),
then pass 2 — which may leave a file at `output_path` — where a timeout
removes the partial output but a plain non-zero exit does not, and
finally the output-exists check. -/
def compress_video_sync (fs : FSys) (input_path output_path : String)
    (max_size_bytes : ℚ) (env : EncodeEnv) : (Bool × String) × FSys :=
  if env.duration ≤ 0 then
    ((false, "Invalid video duration (must be > 0)"), fs)
  else if video_bitrate_kbps max_size_bytes env.duration ≤ 0 then
    ((false, "Video too long for target size."), fs)
  else if env.pass1_timed_out then
    ((false, "Compression timed out during pass 1"), fs)
  else if env.pass1_exit ≠ 0 then
    ((false, "FFmpeg pass 1 failed"), fs)
  else
    let fs2 :=
      match env.pass2_output with
      | some sz => fs.addFile output_path sz
      | none => fs
    if env.pass2_timed_out then
      ((false, "Compression timed out during pass 2"), fs2.rmFile output_path)
    else if env.pass2_exit ≠ 0 then
      ((false, "FFmpeg pass 2 failed"), fs2)
    else
      match fs2.files output_path with
      | some _ => ((true, "Compression completed successfully."), fs2)
      | none => ((false, "Output file was not created"), fs2)

/-- `VideoCompressor.compress_if_needed`: raises `FileNotFoundError`
when the input is missing (`Except.error`); returns `(input_path,
False)` when the size is within `MAX_SIZE_BYTES`; otherwise runs
`_compress_video_sync` toward `<root>_compressed.mp4` and returns
`(output_path, True)` on success, `(input_path, False)` on failure —
it never raises on a failed encode. -/
def compress_if_needed (fs : FSys) (input_path : String) (env : EncodeEnv) :
    Except String ((String × Bool) × FSys) :=
  match fs.files input_path with
  | none => Except.error ("Input file not found: " ++ input_path)
  | some file_size =>
    if file_size ≤ MAX_SIZE_BYTES then Except.ok ((input_path, false), fs)
    else
      let output_path := splitext_root input_path ++ "_compressed.mp4"
      let r := compress_video_sync fs input_path output_path
        (MAX_SIZE_BYTES : ℚ) env
      if r.1.1 then Except.ok ((output_path, true), r.2)
      else Except.ok ((input_path, false), r.2)

/-! ### Retrieval Orchestrator — src/services/twitter_service.py -/

/-- Does `sub` occur at the head of `hay`? -/
def subAtHead : List Char → List Char → Bool
  | [], _ => true
  | _ :: _, [] => false
  | a :: as, b :: bs => a = b && subAtHead as bs

/-- Does `sub` occur anywhere in `hay`? -/
def hasSub (sub : List Char) : List Char → Bool
  | [] => sub.isEmpty
  | b :: bs => subAtHead sub (b :: bs) || hasSub sub bs

/-- Python's `sub in hay` on strings. -/
def containsSub (hay sub : String) : Bool := hasSub sub.data hay.data

/-- Python's `str.lower()` (ASCII case fold, which is all the source's
terminal-error markers need). -/
def lowerStr (s : String) : String := String.mk (s.data.map Char.toLower)

/-- `TwitterService.USER_AGENT`, the primary client identity. -/
def USER_AGENT : String := "TwitterBot/1.0"

/-- First entry of `TwitterService.FALLBACK_USER_AGENTS`. -/
def FALLBACK_UA_1 : String :=
  "Mozilla/5.0 (Windows NT 10.0; Win64; x64) AppleWebKit/537.36 (KHTML, like Gecko) Chrome/120.0.0.0 Safari/537.36"

/-- Second entry of `TwitterService.FALLBACK_USER_AGENTS`. -/
def FALLBACK_UA_2 : String :=
  "Mozilla/5.0 (Macintosh; Intel Mac OS X 10_15_7) AppleWebKit/605.1.15 (KHTML, like Gecko) Version/17.2 Safari/605.1.15"

/-- `TwitterService.FALLBACK_USER_AGENTS`, tried after the primary. -/
def FALLBACK_USER_AGENTS : List String := [FALLBACK_UA_1, FALLBACK_UA_2]

/-- `[self.USER_AGENT] + self.FALLBACK_USER_AGENTS`: the fixed identity
order of the metadata-extraction loop in `TwitterService.download`. -/
def user_agents : List String := USER_AGENT :: FALLBACK_USER_AGENTS

/-- The terminal-error classifier of the extraction loop:
`any(x in str(e).lower() for x in ['not found', 'private'])`. -/
def is_terminal_error (e : String) : Bool :=
  containsSub (lowerStr e) "not found" || containsSub (lowerStr e) "private"

/-- `TwitterService.COMPRESSION_THRESHOLD_BYTES = 49 * 1024 * 1024`. -/
def COMPRESSION_THRESHOLD_BYTES : Nat := 49 * 1024 * 1024

/-- `needs_compression` as computed when `download` builds its result:
`file_size > self.COMPRESSION_THRESHOLD_BYTES`. -/
def needs_compression_of (file_size : Nat) : Bool :=
  decide (COMPRESSION_THRESHOLD_BYTES < file_size)

/-- The metadata record `_extract_metadata_sync` returns. -/
structure MetaInfo where
  m3u8_url : Option String := none
  direct_url : Option String := none
  title : String := "Twitter Video"
  duration : ℚ := 0
  uploader : String := "Unknown"
  video_id : String := ""

/-- The user-agent retry loop of `TwitterService.download`:
`for user_agent in [USER_AGENT] + FALLBACK_USER_AGENTS: try ... break
except e: last_error = e; if terminal: break`.  Returns the extracted
metadata (if any), the `last_error` variable, and the number of
extraction attempts actually made. -/
def extract_attempts (outcome : String → Except String MetaInfo) :
    List String → Option String → Option MetaInfo × Option String × Nat
  | [], last => (none, last, 0)
  | ua :: rest, last =>
    match outcome ua with
    | Except.ok m => (some m, last, 1)
    | Except.error e =>
      if is_terminal_error e then (none, some e, 1)
      else
        let r := extract_attempts outcome rest (some e)
        (r.1, r.2.1, r.2.2 + 1)

/-- Python `str(x)` on the `last_error` variable. -/
def lastErrStr : Option String → String
  | some e => e
  | none => "None"

/-- The `RuntimeError` message raised when every identity failed. -/
def exhaust_msg (last : Option String) : String :=
  "Failed to extract metadata after all attempts. Last error: " ++
    lastErrStr last

/-- The metadata-extraction phase of `download`: run the retry loop and
raise when `meta` is still `None`.  Also reports the attempt count. -/
def extract_meta (outcome : String → Except String MetaInfo) :
    Except String MetaInfo × Nat :=
  match extract_attempts outcome user_agents none with
  | (some m, _, n) => (Except.ok m, n)
  | (none, last, n) => (Except.error (exhaust_msg last), n)

/-- `safe_title = re.sub(r'[^\w\s-]', '', title)[:50].strip().replace(' ', '_')`
(ASCII reading of `\w` and `\s`). -/
def sanitize_title (t : String) : String :=
  let kept := t.data.filter fun c =>
    c.isAlphanum || c = '_' || c.isWhitespace || c = '-'
  let cut := kept.take 50
  let stripped :=
    ((cut.dropWhile Char.isWhitespace).reverse.dropWhile
      Char.isWhitespace).reverse
  String.mk (stripped.map fun c => if c = ' ' then '_' else c)

/-- The retrieval result dictionary `TwitterService.download` returns. -/
structure DlResult where
  file_path : String
  title : String
  duration : ℚ
  file_size_mb : ℚ
  needs_compression : Bool
  uploader : String

/-- Oracle for the external effects of one `TwitterService.download`
call: the per-identity extraction outcome, the `mkdtemp` directory
name, the `NamedTemporaryFile` name the artifact is moved to, whether
the direct aiohttp transfer succeeds (when a direct URL exists),
whether the ffmpeg HLS fallback succeeds, and the byte size the
successful transfer leaves at the output path. -/
structure TwEnv where
  extract_outcome : String → Except String MetaInfo
  temp_dir : String
  final_path : String
  direct_ok : Bool
  ffmpeg_ok : Bool
  downloaded_size : Nat

/-- `TwitterService.download` as a transformer of the file system and
of the task's Progress Channel.  Mirrors the source flow: `mkdtemp`;
tracker update (downloading, 5%); the identity retry loop; the direct
transfer attempt (a failed aiohttp transfer removes its partial file);
the ffmpeg HLS fallback (which raises when no m3u8 URL exists and
removes its partial file on failure); the exists/min-size validation;
the move to a fresh `NamedTemporaryFile` path; the result record.  On
every raising path the `except` block calls
`progress_tracker.set_error(str(e))` and the `finally` block removes
`temp_dir` recursively. -/
def twitter_download (fs0 : FSys) (t0 : ProgressState) (env : TwEnv)
    (now : ℚ) : Except String DlResult × FSys × ProgressState :=
  let fs := fs0.addDir env.temp_dir
  let t := ProgressTracker.update t0
    { stage := some ProgressStage.downloading, progress := some 5,
      speed := some "Extracting info..." } now
  match extract_meta env.extract_outcome with
  | (Except.error msg, _) =>
      (Except.error msg, fs.rmTree env.temp_dir,
        ProgressTracker.set_error t msg now)
  | (Except.ok meta, _) =>
    let output_path := env.temp_dir ++ "/" ++ sanitize_title meta.title ++
      "_" ++ meta.video_id ++ ".mp4"
    let downloaded := meta.direct_url.isSome && env.direct_ok
    let afterDl : Except String FSys :=
      if downloaded then Except.ok (fs.addFile output_path env.downloaded_size)
      else
        match meta.m3u8_url with
        | none => Except.error "No m3u8 stream found for FFmpeg fallback."
        | some _ =>
          if env.ffmpeg_ok then
            Except.ok (fs.addFile output_path env.downloaded_size)
          else Except.error "FFmpeg failed with code 1"
    match afterDl with
    | Except.error msg =>
        (Except.error msg, fs.rmTree env.temp_dir,
          ProgressTracker.set_error t msg now)
    | Except.ok fs2 =>
      match fs2.files output_path with
      | none =>
          (Except.error "File not created or empty after all download attempts.",
            fs2.rmTree env.temp_dir,
            ProgressTracker.set_error t
              "File not created or empty after all download attempts." now)
      | some file_size =>
        if file_size < 10000 then
          (Except.error "File not created or empty after all download attempts.",
            fs2.rmTree env.temp_dir,
            ProgressTracker.set_error t
              "File not created or empty after all download attempts." now)
        else
          let fs3 := (fs2.addFile env.final_path file_size).rmFile output_path
          let t2 := ProgressTracker.update t
            { stage := some ProgressStage.processing, progress := some 100 } now
          (Except.ok
            { file_path := env.final_path, title := meta.title,
              duration := meta.duration,
              file_size_mb := (file_size : ℚ) / (1024 * 1024),
              needs_compression := needs_compression_of file_size,
              uploader := meta.uploader },
            fs3.rmTree env.temp_dir, t2)

/-- A 60 MiB input and a duration long enough to force a non-positive
video bitrate, for refuting claim C4. -/
def fsBig : FSys := FSys.empty.addFile "/tmp/big.mp4" 62914560

/-- Encoder environment with a 10⁷-second probed duration. -/
def envLong : EncodeEnv := { duration := 10000000 }

/-! ### QueueStats and the Pipeline Stage Runner —
src/queue_manager.py, src/processors/media_processor.py -/

/-- The `self.stats` dictionary of `DownloadQueueManager`. -/
structure QueueStats where
  total_queued : ℤ := 0
  total_processed : ℤ := 0
  total_failed : ℤ := 0
  total_compressed : ℤ := 0
  active : ℤ := 0
  currently_downloading : ℤ := 0
  currently_compressing : ℤ := 0
  currently_uploading : ℤ := 0
deriving DecidableEq, Repr

/-- `DownloadQueueManager.update_status`: look up
`currently_<status_type>` and, when it is a known key, set it to
`max(0, old + increment)`; unknown keys are ignored. -/
def update_status (s : QueueStats) (status_type : String) (inc : ℤ) : QueueStats :=
  if status_type = "downloading" then
    { s with currently_downloading := max 0 (s.currently_downloading + inc) }
  else if status_type = "compressing" then
    { s with currently_compressing := max 0 (s.currently_compressing + inc) }
  else if status_type = "uploading" then
    { s with currently_uploading := max 0 (s.currently_uploading + inc) }
  else s

/-- Oracle for one `MediaProcessor.process` run: the retrieval oracle,
the encoder oracle used if compression is invoked, and the outcome of
`client.send_file` (`Except.error` models a raising upload). -/
structure ProcEnv where
  tw : TwEnv
  enc : EncodeEnv
  upload : Except String Unit

/-- The `finally` loop `for f in temp_files: if os.path.exists(f):
os.unlink(f)`. -/
def unlink_temp_files (fs : FSys) (temp_files : List String) : FSys :=
  temp_files.foldl FSys.rmFile fs

/-- The upload stage plus the `finally` block of
`MediaProcessor.process`, shared by the success and the raising path:
increment `currently_uploading`, send the file, decrement only on
success, then run the `finally` cleanup.  The `finally` block unlinks
the tracked `temp_files` (only a freshly produced compressed file is
ever tracked) and its `if service and 'temp_dir' in locals():` guard is
always false — `temp_dir` is never a local of `process` — so
`service.cleanup` is never invoked from here.  Returns the final file
system, stats, tracker and whether the task completed. -/
def process_upload (fs : FSys) (stats : QueueStats) (t : ProgressState)
    (env : ProcEnv) (now : ℚ) (temp_files : List String) :
    FSys × QueueStats × ProgressState × Bool :=
  let stats := update_status stats "uploading" 1
  let t := ProgressTracker.update t
    { stage := some ProgressStage.uploading, progress := some 0 } now
  match env.upload with
  | Except.ok _ =>
    let stats := update_status stats "uploading" (-1)
    let t := ProgressTracker.set_completed t now
    (unlink_temp_files fs temp_files, stats, t, true)
  | Except.error e =>
    let t := ProgressTracker.set_error t e now
    (unlink_temp_files fs temp_files, stats, t, false)

/-- `MediaProcessor.process` for one task, as a transformer of the
file system, the queue stats and the task's Progress Channel, returning
also whether the task reached `set_completed`.  Mirrors the source:
increment `currently_downloading`, run `service.download`; on success
decrement it, conditionally run the compression stage (increment
`currently_compressing`, call `compress_if_needed`, track a fresh
compressed output in `temp_files`, decrement), then the upload stage;
any raising stage skips that stage's decrement, sets the tracker error
and falls through to the `finally` cleanup.

(The source passes a `progress_callback=` keyword that
`VideoCompressor.compress_if_needed` does not accept; the call is
modelled by `compress_if_needed`'s own semantics.) -/
def media_process (fs : FSys) (stats : QueueStats) (t : ProgressState)
    (env : ProcEnv) (now : ℚ) : FSys × QueueStats × ProgressState × Bool :=
  let stats := update_status stats "downloading" 1
  let t := ProgressTracker.update t
    { stage := some ProgressStage.downloading, progress := some 0 } now
  match twitter_download fs t env.tw now with
  | (Except.error e, fs, t) =>
    (unlink_temp_files fs [], stats, ProgressTracker.set_error t e now, false)
  | (Except.ok r, fs, t) =>
    let stats := update_status stats "downloading" (-1)
    let video_path := r.file_path
    if r.needs_compression then
      let stats := update_status stats "compressing" 1
      let t := ProgressTracker.update t
        { stage := some ProgressStage.compressing, progress := some 0,
          eta := some "Calculating..." } now
      match compress_if_needed fs video_path env.enc with
      | Except.error e =>
        (unlink_temp_files fs [], stats, ProgressTracker.set_error t e now,
          false)
      | Except.ok ((final_path, was_comp), fs) =>
        let temp_files :=
          if was_comp && final_path ≠ video_path then [final_path] else []
        let stats := update_status stats "compressing" (-1)
        process_upload fs stats t env now temp_files
    else
      process_upload fs stats t env now []

/-! ### Task Queue & Worker Pool — src/queue_manager.py

`DownloadQueueManager.start` spawns `max_concurrent` workers; each
worker loops: pop a task from the unbounded `asyncio.Queue` (so a
popped task can sit waiting), enter `async with self.semaphore`
(capacity `max_concurrent`), run the pipeline, leave the semaphore.
The interleavings of those awaits form the labelled transition system
below; a task is in a non-terminal, non-pending state exactly while
its worker holds the semaphore and runs the heavy stages. -/

/-- The phase of one worker coroutine. -/
inductive WorkerPhase where
  | idle
  | holding (taskId : Nat)
  | processing (taskId : Nat)
deriving DecidableEq, Repr

/-- 1 for a worker currently running the heavy pipeline stages. -/
def procWeight : WorkerPhase → Nat
  | WorkerPhase.processing _ => 1
  | _ => 0

/-- State of the queue manager with `k = max_concurrent` workers:
FIFO backlog of the `asyncio.Queue`, each worker's phase, and the
semaphore's available permits. -/
structure QMState (k : Nat) where
  backlog : List Nat
  worker : Fin k → WorkerPhase
  sem : Nat

/-- Initial state after `start`: empty queue, idle workers, semaphore
at full capacity `k`. -/
def QMState.init (k : Nat) : QMState k :=
  { backlog := [], worker := fun _ => WorkerPhase.idle, sem := k }

/-- Number of tasks whose heavy stages are running right now. -/
def processingCount {k : Nat} (s : QMState k) : Nat :=
  ∑ w, procWeight (s.worker w)

/-- The atomic steps of `DownloadQueueManager`: `submit` is
`add_to_queue` (an unconditional `queue.put`, enabled in every state);
`dequeue` is a worker returning from `queue.get`; `acquire` is the
worker entering `async with self.semaphore`; `finish` is
`_process_task_safely` returning (success or failure) and the
semaphore being released. -/
inductive QMStep (k : Nat) : QMState k → QMState k → Prop where
  | submit (s : QMState k) (id : Nat) :
      QMStep k s { s with backlog := s.backlog ++ [id] }
  | dequeue (s : QMState k) (w : Fin k) (id : Nat) (rest : List Nat)
      (hw : s.worker w = WorkerPhase.idle) (hq : s.backlog = id :: rest) :
      QMStep k s { s with
                   backlog := rest,
                   worker := Function.update s.worker w
                     (WorkerPhase.holding id) }
  | acquire (s : QMState k) (w : Fin k) (id : Nat)
      (hw : s.worker w = WorkerPhase.holding id) (hs : 0 < s.sem) :
      QMStep k s { s with
                   worker := Function.update s.worker w
                     (WorkerPhase.processing id),
                   sem := s.sem - 1 }
  | finish (s : QMState k) (w : Fin k) (id : Nat)
      (hw : s.worker w = WorkerPhase.processing id) :
      QMStep k s { s with
                   worker := Function.update s.worker w WorkerPhase.idle,
                   sem := s.sem + 1 }

/-- States reachable from the started queue manager. -/
inductive QMReach (k : Nat) : QMState k → Prop where
  | init : QMReach k (QMState.init k)
  | step (s s2 : QMState k) : QMReach k s → QMStep k s s2 → QMReach k s2

/-- A task whose `service.download` raises (a terminal "not found"
extraction failure). -/
def envFailDl : ProcEnv :=
  { tw := { extract_outcome := fun _ => Except.error "Tweet not found",
            temp_dir := "/tmp/twitter_dl_a", final_path := "/tmp/tmpa.mp4",
            direct_ok := false, ffmpeg_ok := false, downloaded_size := 0 },
    enc := { duration := 60 }, upload := Except.ok () }

/-- Metadata of a small (20 MiB) directly downloadable video. -/
def metaOk : MetaInfo :=
  { m3u8_url := none, direct_url := some "https://video.twimg.com/v.mp4",
    title := "My Clip", duration := 60, uploader := "someone",
    video_id := "123" }

/-- A task that downloads a 20 MiB file directly and uploads it
successfully (no compression needed). -/
def envOk : ProcEnv :=
  { tw := { extract_outcome := fun _ => Except.ok metaOk,
            temp_dir := "/tmp/twitter_dl_b", final_path := "/tmp/tmpb.mp4",
            direct_ok := true, ffmpeg_ok := false,
            downloaded_size := 20971520 },
    enc := { duration := 60 }, upload := Except.ok () }

/-- The `progress` field after `update` is the clamped provided value,
or the old value when no `progress` argument was given. -/
lemma update_progress_eq (s : ProgressState) (a : UpdateArgs) (now : ℚ) :
    (update s a now).progress =
      (match a.progress with
       | some p => min 100 (max 0 p)
       | none => s.progress) := by
  rcases a with ⟨st, pr, sp, et, fn, er, co⟩
  cases st <;> cases pr <;> cases sp <;> cases et <;> cases fn <;> cases er <;>
      cases co <;> simp only [update] <;>
    first
      | rfl
      | (rename_i c; cases c <;> rfl)

/-- The `stage` field after `update`: a provided `completed = true` wins,
then a provided `error`, then a provided `stage`, else the old stage. -/
lemma update_stage_eq (s : ProgressState) (a : UpdateArgs) (now : ℚ) :
    (update s a now).stage =
      (if a.completed = some true then ProgressStage.completed
       else
         match a.error with
         | some _ => ProgressStage.failed
         | none =>
           match a.stage with
           | some st => st
           | none => s.stage) := by
  rcases a with ⟨st, pr, sp, et, fn, er, co⟩
  cases st <;> cases pr <;> cases sp <;> cases et <;> cases fn <;> cases er <;>
      cases co <;> simp only [update] <;>
    first
      | rfl
      | (rename_i c; cases c <;> rfl)

/-- The `completed` flag after `update` is the provided value when given. -/
lemma update_completed_eq (s : ProgressState) (a : UpdateArgs) (now : ℚ) :
    (update s a now).completed =
      (match a.completed with
       | some c => c
       | none => s.completed) := by
  rcases a with ⟨st, pr, sp, et, fn, er, co⟩
  cases st <;> cases pr <;> cases sp <;> cases et <;> cases fn <;> cases er <;>
      cases co <;> simp only [update] <;>
    first
      | rfl
      | (rename_i c; cases c <;> rfl)

/-- The `error` field after `update` is the provided message when given. -/
lemma update_error_eq (s : ProgressState) (a : UpdateArgs) (now : ℚ) :
    (update s a now).error =
      (match a.error with
       | some e => some e
       | none => s.error) := by
  rcases a with ⟨st, pr, sp, et, fn, er, co⟩
  cases st <;> cases pr <;> cases sp <;> cases et <;> cases fn <;> cases er <;>
      cases co <;> simp only [update] <;>
    first
      | rfl
      | (rename_i c; cases c <;> rfl)

/-- Claim C8: after any `update` call supplying a `progress` value `p`
(including values below 0 or above 100), the stored progress is in
[0, 100]; inputs below 0 are clamped to 0 and inputs above 100 are
clamped to 100. -/
theorem claim_C8_progress_clamped (s : ProgressState) (a : UpdateArgs)
    (now p : ℚ) (hp : a.progress = some p) :
    0 ≤ (update s a now).progress ∧ (update s a now).progress ≤ 100 ∧
    (p < 0 → (update s a now).progress = 0) ∧
    (100 < p → (update s a now).progress = 100) := by
  rw [update_progress_eq, hp]
  refine ⟨le_min (by norm_num) (le_max_left 0 p), min_le_left 100 _, ?_, ?_⟩
  · intro h
    show (100 : ℚ) ⊓ (0 ⊔ p) = 0
    rw [max_eq_left h.le]
    norm_num
  · intro h
    show (100 : ℚ) ⊓ (0 ⊔ p) = 100
    rw [max_eq_right (by linarith : (0 : ℚ) ≤ p), min_eq_left h.le]

/-- Witness for claim C8 at a concrete out-of-range input. -/
theorem claim_C8_progress_clamped_witness :
    ({ progress := some 150 } : UpdateArgs).progress = some 150 ∧
    (update {} { progress := some 150 } 0).progress = 100 :=
  ⟨rfl, (claim_C8_progress_clamped {} { progress := some 150 } 0 150 rfl).2.2.2
      (by norm_num)⟩

/-- Claim C5 fails as stated: a single `update` call providing both an
error message and `completed = true` (exactly what `set_error` does)
ends with stage `completed`, not `failed`, because the `completed`
branch runs after the `error` branch; the same call leaves the progress
at its old value 0 rather than forcing 100. -/
theorem claim_C5_counterexample :
    (update {} { error := some "boom", completed := some true } 0).stage
        = ProgressStage.completed ∧
    (update {} { error := some "boom", completed := some true } 0).stage
        ≠ ProgressStage.failed ∧
    (update {} { error := some "boom", completed := some true } 0).progress
        = 0 := by
  refine ⟨rfl, ?_, rfl⟩
  intro h
  exact ProgressStage.noConfusion h

/-- Claim C5 (amended): a provided `errorMessage` forces
`stage = Failed` unless the very same call also provides
`completed = true`, in which case the `completed` branch overrides and
the stage is `Completed`; a provided `completed = true` forces
`stage = Completed` and sets the `completed` flag, but does not by
itself set the progress to 100 — `set_completed` reaches 100 by passing
`progress = 100` explicitly. -/
theorem claim_C5_amended (s : ProgressState) (a : UpdateArgs) (now : ℚ) :
    (a.error ≠ none → a.completed ≠ some true →
      (update s a now).stage = ProgressStage.failed) ∧
    (a.completed = some true →
      (update s a now).stage = ProgressStage.completed ∧
      (update s a now).completed = true) ∧
    (ProgressTracker.set_completed s now).stage = ProgressStage.completed ∧
    (ProgressTracker.set_completed s now).progress = 100 := by
  refine ⟨?_, ?_, ?_, ?_⟩
  · intro herr hco
    rw [update_stage_eq, if_neg hco]
    cases he : a.error with
    | none => exact absurd he herr
    | some e => rfl
  · intro hco
    constructor
    · rw [update_stage_eq, if_pos hco]
    · rw [update_completed_eq, hco]
  · rw [ProgressTracker.set_completed, update_stage_eq]
    rfl
  · rw [ProgressTracker.set_completed, update_progress_eq]
    norm_num

/-- Witness for the amended claim C5 at concrete calls. -/
theorem claim_C5_amended_witness :
    (update {} { error := some "x" } 0).stage = ProgressStage.failed ∧
    (update {} { completed := some true } 0).stage = ProgressStage.completed := by
  constructor
  · exact (claim_C5_amended {} { error := some "x" } 0).1
      (by simp) (by simp)
  · exact ((claim_C5_amended {} { completed := some true } 0).2.1 rfl).1

/-- The byte ceiling is the stated 49.5 MiB. -/
lemma MAX_SIZE_BYTES_eq : (MAX_SIZE_BYTES : ℚ) = MAX_SIZE_MB * 1024 * 1024 := by
  norm_num [MAX_SIZE_BYTES, MAX_SIZE_MB]

/-- A successful extraction stops the identity loop after one attempt. -/
lemma extract_attempts_ok (outcome : String → Except String MetaInfo)
    (ua : String) (rest : List String) (last : Option String) (m : MetaInfo)
    (h : outcome ua = Except.ok m) :
    extract_attempts outcome (ua :: rest) last = (some m, last, 1) := by
  simp [extract_attempts, h]

/-- A terminal extraction error abandons the remaining identities. -/
lemma extract_attempts_terminal (outcome : String → Except String MetaInfo)
    (ua : String) (rest : List String) (last : Option String) (e : String)
    (h : outcome ua = Except.error e) (ht : is_terminal_error e = true) :
    extract_attempts outcome (ua :: rest) last = (none, some e, 1) := by
  simp [extract_attempts, h, ht]

/-- A non-terminal extraction error records `last_error` and moves to
the next identity, adding one to the attempt count. -/
lemma extract_attempts_transient (outcome : String → Except String MetaInfo)
    (ua : String) (rest : List String) (last : Option String) (e : String)
    (h : outcome ua = Except.error e) (ht : is_terminal_error e = false) :
    extract_attempts outcome (ua :: rest) last =
      ((extract_attempts outcome rest (some e)).1,
       (extract_attempts outcome rest (some e)).2.1,
       (extract_attempts outcome rest (some e)).2.2 + 1) := by
  simp [extract_attempts, h, ht]

/-- Claim C6: the identity loop tries the primary identity first and
then the two fallbacks in fixed order; a terminal extraction error
(matching "not found" / "private") on the first identity abandons the
rest so exactly one attempt is made; non-terminal errors continue, so
with two transient failures the third identity's metadata wins after
exactly 3 attempts; and when all identities fail non-terminally the
phase fails after 3 attempts carrying the last observed error in its
message, `download` returns that error, and the Progress Channel's
error field is set to it before the raise propagates. -/
theorem claim_C6_retry_policy (outcome : String → Except String MetaInfo)
    (fs : FSys) (t : ProgressState) (env : TwEnv) (now : ℚ)
    (henv : env.extract_outcome = outcome) :
    user_agents = USER_AGENT :: FALLBACK_UA_1 :: FALLBACK_UA_2 :: [] ∧
    (∀ e, outcome USER_AGENT = Except.error e → is_terminal_error e = true →
      extract_meta outcome = (Except.error (exhaust_msg (some e)), 1)) ∧
    (∀ e1 e2 m, outcome USER_AGENT = Except.error e1 →
      is_terminal_error e1 = false →
      outcome FALLBACK_UA_1 = Except.error e2 →
      is_terminal_error e2 = false →
      outcome FALLBACK_UA_2 = Except.ok m →
      extract_meta outcome = (Except.ok m, 3)) ∧
    (∀ e1 e2 e3, outcome USER_AGENT = Except.error e1 →
      is_terminal_error e1 = false →
      outcome FALLBACK_UA_1 = Except.error e2 →
      is_terminal_error e2 = false →
      outcome FALLBACK_UA_2 = Except.error e3 →
      is_terminal_error e3 = false →
      extract_meta outcome = (Except.error (exhaust_msg (some e3)), 3) ∧
      (twitter_download fs t env now).1 =
        Except.error (exhaust_msg (some e3)) ∧
      (twitter_download fs t env now).2.2.error =
        some (exhaust_msg (some e3))) := by
  refine ⟨rfl, ?_, ?_, ?_⟩
  · intro e h1 ht1
    have hloop : extract_attempts outcome user_agents none = (none, some e, 1) :=
      extract_attempts_terminal outcome _ _ _ _ h1 ht1
    rw [extract_meta, hloop]
  · intro e1 e2 m h1 ht1 h2 ht2 h3
    have hloop : extract_attempts outcome user_agents none = (some m, some e2, 3) := by
      show extract_attempts outcome
        (USER_AGENT :: FALLBACK_UA_1 :: FALLBACK_UA_2 :: []) none = _
      rw [extract_attempts_transient outcome _ _ _ _ h1 ht1,
        extract_attempts_transient outcome _ _ _ _ h2 ht2,
        extract_attempts_ok outcome _ _ _ _ h3]
    rw [extract_meta, hloop]
  · intro e1 e2 e3 h1 ht1 h2 ht2 h3 ht3
    have hloop : extract_attempts outcome user_agents none = (none, some e3, 3) := by
      show extract_attempts outcome
        (USER_AGENT :: FALLBACK_UA_1 :: FALLBACK_UA_2 :: []) none = _
      rw [extract_attempts_transient outcome _ _ _ _ h1 ht1,
        extract_attempts_transient outcome _ _ _ _ h2 ht2,
        extract_attempts_transient outcome _ _ _ _ h3 ht3]
      rfl
    have hmeta : extract_meta outcome =
        (Except.error (exhaust_msg (some e3)), 3) := by
      rw [extract_meta, hloop]
    refine ⟨hmeta, ?_, ?_⟩
    · rw [twitter_download, henv, hmeta]
    · rw [twitter_download, henv, hmeta]
      show (ProgressTracker.set_error _ (exhaust_msg (some e3)) now).error = _
      rw [ProgressTracker.set_error, update_error_eq]

/-- Witness for claim C6: a terminal "not found" error on the primary
identity makes extraction fail after exactly one attempt. -/
theorem claim_C6_retry_policy_witness :
    is_terminal_error "Tweet not found" = true ∧
    extract_meta (fun _ => Except.error "Tweet not found") =
      (Except.error (exhaust_msg (some "Tweet not found")), 1) := by
  refine ⟨by decide, ?_⟩
  exact (claim_C6_retry_policy (fun _ => Except.error "Tweet not found")
    FSys.empty {}
    ⟨fun _ => Except.error "Tweet not found", "/tmp/twitter_dl_x",
      "/tmp/tmpfinal.mp4", false, false, 0⟩ 0 rfl).2.1
    "Tweet not found" rfl (by decide)

/-- Claim C10: the retrieval threshold (49 MiB) is strictly below the
compression ceiling (49.5 MiB), so a download whose size lies strictly
between them is flagged `needs_compression = true` by the retrieval
result yet `compress_if_needed` takes its fast path and returns
`(inputPath, false)` without invoking the encoder. -/
theorem claim_C10_threshold_gap (fs : FSys) (p : String) (env : EncodeEnv)
    (sz : Nat) (h1 : COMPRESSION_THRESHOLD_BYTES < sz)
    (h2 : sz ≤ MAX_SIZE_BYTES) (hf : fs.files p = some sz) :
    COMPRESSION_THRESHOLD_BYTES < MAX_SIZE_BYTES ∧
    needs_compression_of sz = true ∧
    compress_if_needed fs p env = Except.ok ((p, false), fs) := by
  refine ⟨by norm_num [COMPRESSION_THRESHOLD_BYTES, MAX_SIZE_BYTES],
    by simpa [needs_compression_of] using h1, ?_⟩
  simp only [compress_if_needed, hf]
  exact if_pos h2

/-- Witness for claim C10 at a 51,500,000-byte file (between 49 MiB and
49.5 MiB). -/
theorem claim_C10_threshold_gap_witness :
    (FSys.empty.addFile "/tmp/mid.mp4" 51500000).files "/tmp/mid.mp4"
        = some 51500000 ∧
    COMPRESSION_THRESHOLD_BYTES < 51500000 ∧
    51500000 ≤ MAX_SIZE_BYTES ∧
    needs_compression_of 51500000 = true ∧
    compress_if_needed (FSys.empty.addFile "/tmp/mid.mp4" 51500000)
        "/tmp/mid.mp4" { duration := 60 } =
      Except.ok (("/tmp/mid.mp4", false),
        FSys.empty.addFile "/tmp/mid.mp4" 51500000) := by
  have h := claim_C10_threshold_gap
    (FSys.empty.addFile "/tmp/mid.mp4" 51500000) "/tmp/mid.mp4"
    { duration := 60 } 51500000
    (by norm_num [COMPRESSION_THRESHOLD_BYTES])
    (by norm_num [MAX_SIZE_BYTES]) rfl
  exact ⟨rfl, by norm_num [COMPRESSION_THRESHOLD_BYTES],
    by norm_num [MAX_SIZE_BYTES], h.2.1, h.2.2⟩

/-- Claim C7: the target video bitrate is computed exactly as
`(ceilingBytes * 0.95 * 8) / 1000 / durationSeconds - 128` (kbps, audio
fixed at 128 kbps) — a deterministic function of its two inputs — and
at `ceilingBytes = 49.5 MiB = 51904512`, `durationSeconds = 600` it
evaluates to `8272768 / 15625 = 529.457152` kbps, the hand-computed
reference `(49.5*1024*1024*0.95*8)/600 - 128000` bps divided by 1000. -/
theorem claim_C7_bitrate_formula :
    (∀ c d : ℚ, video_bitrate_kbps c d = c * (95 / 100) * 8 / 1000 / d - 128) ∧
    video_bitrate_kbps (MAX_SIZE_BYTES : ℚ) 600 = 8272768 / 15625 ∧
    (8272768 : ℚ) / 15625 =
      ((99 / 2 : ℚ) * 1024 * 1024 * (95 / 100) * 8 / 600 - 128000) / 1000 := by
  refine ⟨fun c d => rfl, ?_, by norm_num⟩
  norm_num [video_bitrate_kbps, TARGET_SIZE_RATIO, AUDIO_BITRATE_KBPS,
    MAX_SIZE_BYTES]

/-- Claim C9: on an existing input whose size is at most the ceiling,
`compress_if_needed` returns `(inputPath, false)` with the file system
untouched, and — being side-effect free there — a second call on the
returned state gives the same result again. -/
theorem claim_C9_small_input_noop (fs : FSys) (input_path : String)
    (env env2 : EncodeEnv) (sz : Nat) (hf : fs.files input_path = some sz)
    (hsz : sz ≤ MAX_SIZE_BYTES) :
    compress_if_needed fs input_path env =
      Except.ok ((input_path, false), fs) ∧
    compress_if_needed fs input_path env2 =
      Except.ok ((input_path, false), fs) := by
  constructor <;> (rw [compress_if_needed, hf]; exact if_pos hsz)

/-- Witness for claim C9 on a concrete 1000-byte file. -/
theorem claim_C9_small_input_noop_witness :
    (FSys.empty.addFile "/tmp/video.mp4" 1000).files "/tmp/video.mp4"
        = some 1000 ∧
    1000 ≤ MAX_SIZE_BYTES ∧
    compress_if_needed (FSys.empty.addFile "/tmp/video.mp4" 1000)
        "/tmp/video.mp4" { duration := 60 } =
      Except.ok (("/tmp/video.mp4", false),
        FSys.empty.addFile "/tmp/video.mp4" 1000) :=
  ⟨rfl, by norm_num [MAX_SIZE_BYTES],
    (claim_C9_small_input_noop (FSys.empty.addFile "/tmp/video.mp4" 1000)
      "/tmp/video.mp4" { duration := 60 } { duration := 60 } 1000 rfl
      (by norm_num [MAX_SIZE_BYTES])).1⟩

/-- Claim C4 fails as stated: on a 60 MiB input (above the 49.5 MiB
ceiling) whose duration drives the computed video bitrate negative,
`compress_if_needed` does not raise — it returns
`Except.ok ((inputPath, false), fs)`, silently handing back the
oversized input path. -/
theorem claim_C4_counterexample :
    fsBig.files "/tmp/big.mp4" = some 62914560 ∧
    MAX_SIZE_BYTES < 62914560 ∧
    (0 : ℚ) < envLong.duration ∧
    video_bitrate_kbps (MAX_SIZE_BYTES : ℚ) envLong.duration ≤ 0 ∧
    compress_if_needed fsBig "/tmp/big.mp4" envLong =
      Except.ok (("/tmp/big.mp4", false), fsBig) := by
  have hvb : video_bitrate_kbps (MAX_SIZE_BYTES : ℚ) envLong.duration ≤ 0 := by
    norm_num [video_bitrate_kbps, TARGET_SIZE_RATIO, AUDIO_BITRATE_KBPS,
      MAX_SIZE_BYTES, envLong]
  have hb : fsBig.files "/tmp/big.mp4" = some 62914560 := rfl
  have hsync : compress_video_sync fsBig "/tmp/big.mp4"
      (splitext_root "/tmp/big.mp4" ++ "_compressed.mp4")
      (MAX_SIZE_BYTES : ℚ) envLong =
      ((false, "Video too long for target size."), fsBig) := by
    rw [compress_video_sync, if_neg (by norm_num [envLong]), if_pos hvb]
  refine ⟨rfl, by norm_num [MAX_SIZE_BYTES], by norm_num [envLong], hvb, ?_⟩
  simp only [compress_if_needed, hb]
  rw [if_neg (by norm_num [MAX_SIZE_BYTES] : ¬(62914560 ≤ MAX_SIZE_BYTES))]
  simp [hsync]

/-- Claim C4 (amended): when the encode cannot meet constraints the
failure is not clamped away — a non-positive computed bitrate, like any
encoder failure reported by `_compress_video_sync`, makes
`compress_if_needed` give up — but instead of raising a
`CompressionError` it returns `(inputPath, false)`, handing the
oversized input path back to the caller; only a missing input file
raises. -/
theorem claim_C4_amended (fs : FSys) (input_path : String) (env : EncodeEnv)
    (sz : Nat) (hf : fs.files input_path = some sz)
    (hsz : MAX_SIZE_BYTES < sz) :
    (0 < env.duration →
      video_bitrate_kbps (MAX_SIZE_BYTES : ℚ) env.duration ≤ 0 →
      compress_if_needed fs input_path env =
        Except.ok ((input_path, false), fs)) ∧
    ((compress_video_sync fs input_path
        (splitext_root input_path ++ "_compressed.mp4")
        (MAX_SIZE_BYTES : ℚ) env).1.1 = false →
      compress_if_needed fs input_path env =
        Except.ok ((input_path, false),
          (compress_video_sync fs input_path
            (splitext_root input_path ++ "_compressed.mp4")
            (MAX_SIZE_BYTES : ℚ) env).2)) := by
  constructor
  · intro hd hvb
    have hsync : compress_video_sync fs input_path
        (splitext_root input_path ++ "_compressed.mp4")
        (MAX_SIZE_BYTES : ℚ) env =
        ((false, "Video too long for target size."), fs) := by
      rw [compress_video_sync, if_neg (not_le.mpr hd), if_pos hvb]
    simp only [compress_if_needed, hf]
    rw [if_neg (not_le.mpr hsz)]
    simp [hsync]
  · intro hfail
    simp only [compress_if_needed, hf]
    rw [if_neg (not_le.mpr hsz)]
    simp [hfail]

/-- Witness for the amended claim C4 on the concrete long video. -/
theorem claim_C4_amended_witness :
    fsBig.files "/tmp/big.mp4" = some 62914560 ∧
    MAX_SIZE_BYTES < 62914560 ∧
    compress_if_needed fsBig "/tmp/big.mp4" envLong =
      Except.ok (("/tmp/big.mp4", false), fsBig) :=
  ⟨rfl, by norm_num [MAX_SIZE_BYTES],
    (claim_C4_amended fsBig "/tmp/big.mp4" envLong 62914560 rfl
        (by norm_num [MAX_SIZE_BYTES])).1
      (by norm_num [envLong])
      (by norm_num [video_bitrate_kbps, TARGET_SIZE_RATIO,
        AUDIO_BITRATE_KBPS, MAX_SIZE_BYTES, envLong])⟩

/-- Updating one worker's phase trades its old weight for the new. -/
lemma processingCount_update {k : Nat} (f : Fin k → WorkerPhase)
    (w : Fin k) (v : WorkerPhase) :
    (∑ x, procWeight (Function.update f w v x)) + procWeight (f w) =
      (∑ x, procWeight (f x)) + procWeight v := by
  have hupd : (fun x => procWeight (Function.update f w v x)) =
      Function.update (fun x => procWeight (f x)) w (procWeight v) := by
    funext x
    simp only [Function.update_apply]
    split <;> rfl
  rw [hupd, Finset.sum_update_of_mem (Finset.mem_univ w),
    Finset.sum_eq_add_sum_diff_singleton (Finset.mem_univ w)
      fun x => procWeight (f x)]
  omega

/-- The semaphore invariant: available permits plus running pipelines
always equal the capacity `k`. -/
lemma qm_invariant {k : Nat} (s : QMState k) (h : QMReach k s) :
    s.sem + processingCount s = k := by
  induction h with
  | init =>
    simp [QMState.init, processingCount, procWeight]
  | step s s2 _ hstep ih =>
    cases hstep with
    | submit id => exact ih
    | dequeue w id rest hw hq =>
      have := processingCount_update s.worker w (WorkerPhase.holding id)
      rw [hw] at this
      show s.sem + ∑ x, procWeight
        (Function.update s.worker w (WorkerPhase.holding id) x) = k
      rw [processingCount] at ih
      have h0 : procWeight WorkerPhase.idle = 0 := rfl
      have h1 : procWeight (WorkerPhase.holding id) = 0 := rfl
      rw [h0, h1] at this
      omega
    | acquire w id hw hs =>
      have := processingCount_update s.worker w (WorkerPhase.processing id)
      rw [hw] at this
      show s.sem - 1 + ∑ x, procWeight
        (Function.update s.worker w (WorkerPhase.processing id) x) = k
      rw [processingCount] at ih
      have h0 : procWeight (WorkerPhase.holding id) = 0 := rfl
      have h1 : procWeight (WorkerPhase.processing id) = 1 := rfl
      rw [h0, h1] at this
      omega
    | finish w id hw =>
      have := processingCount_update s.worker w WorkerPhase.idle
      rw [hw] at this
      show s.sem + 1 + ∑ x, procWeight
        (Function.update s.worker w WorkerPhase.idle x) = k
      rw [processingCount] at ih
      have h0 : procWeight (WorkerPhase.processing id) = 1 := rfl
      have h1 : procWeight WorkerPhase.idle = 0 := rfl
      rw [h0, h1] at this
      omega

/-- Claim C1: in every reachable state of the queue manager with
`max_concurrent = k`, at most `k` tasks are running their heavy
download/compress/upload stages (non-terminal, non-pending), and the
`submit` transition — admission to the unbounded backlog — is enabled
in every state, so admission never fails. -/
theorem claim_C1_bounded_concurrency (k : Nat) (s : QMState k)
    (h : QMReach k s) :
    processingCount s ≤ k ∧
    ∀ id, QMStep k s { s with backlog := s.backlog ++ [id] } := by
  refine ⟨?_, fun id => QMStep.submit s id⟩
  have := qm_invariant s h
  omega

/-- Witness for claim C1 at the initial two-worker state. -/
theorem claim_C1_bounded_concurrency_witness :
    processingCount (QMState.init 2) ≤ 2 ∧
    ∀ id, QMStep 2 (QMState.init 2)
      { QMState.init 2 with backlog := (QMState.init 2).backlog ++ [id] } :=
  claim_C1_bounded_concurrency 2 (QMState.init 2) QMReach.init

/-- Claim C2 names a real bug: `MediaProcessor.process` increments
`currently_downloading` before `service.download` and decrements it
only on the line after, with no `finally`; when the download raises,
the task ends failed with the counter left at 1 — the increment is
never matched by a decrement on the error path. -/
theorem claim_C2_counter_leak :
    ({} : QueueStats).currently_downloading = 0 ∧
    (media_process FSys.empty {} {} envFailDl 0).2.1.currently_downloading
      = 1 ∧
    (media_process FSys.empty {} {} envFailDl 0).2.2.2 = false := by
  exact ⟨rfl, rfl, rfl⟩

/-- Claim C3 names a real bug: after a fully successful run the
downloaded artifact — moved by retrieval to a fresh
`NamedTemporaryFile(delete=False)` path — is still on disk when
`MediaProcessor.process` returns; `process` unlinks only the tracked
compressed output and its `'temp_dir' in locals()` guard is dead code.
The retrieval temp directory itself is removed (by the service's own
`finally`), but the claim's "zero residual temp files" fails. -/
theorem claim_C3_residual_download :
    (media_process FSys.empty {} {} envOk 0).2.2.2 = true ∧
    (media_process FSys.empty {} {} envOk 0).1.files "/tmp/tmpb.mp4"
      = some 20971520 ∧
    (media_process FSys.empty {} {} envOk 0).1.dirs "/tmp/twitter_dl_b"
      = false := by
  exact ⟨rfl, rfl, rfl⟩

end Telegram
